import Mathlib

/-
Verification development for the Kakineha Coffee Beverages backend
(src/main.py, src/schemas.py).

Embedding conventions:
* Python floats (prices, quantities, totals) are embedded as rationals.
* Mongo ObjectIds are embedded as natural numbers handed out by a counter
  kept in each store state; identifiers are treated as opaque.
* The schemaless product collection is embedded as an association list of
  documents, a document being an association list from field names to
  JSON-like values, since the admin update handlers mutate arbitrary field
  sets with Mongo dollar-set.
* Handlers are pure functions from their request payload and the relevant
  store state to a result paired with the next store state; HTTP failures
  are the error side of an Except.
-/

namespace Kakineha

/-- JSON-like value held by one field of a stored document. -/
inductive Value where
  | str (s : String)
  | num (q : ℚ)
  | boolean (b : Bool)
  | null
  | time (t : Nat)
  deriving DecidableEq

/-- A schemaless document: association list from field names to values. -/
abbrev Doc := List (String × Value)

/-- Field lookup in a document (first occurrence of the key wins, as in a
Python dict / Mongo document where keys are unique). -/
def lookupField (d : Doc) (k : String) : Option Value :=
  match d with
  | [] => none
  | (k1, v) :: rest => if k1 = k then some v else lookupField rest k

/-- Set one field of a document: replace the first occurrence of the key,
or append the field if the key is absent (Mongo dollar-set semantics for a
single field). -/
def setField (d : Doc) (k : String) (v : Value) : Doc :=
  match d with
  | [] => [(k, v)]
  | (k1, v1) :: rest => if k1 = k then (k, v) :: rest else (k1, v1) :: setField rest k v

/-- Mongo dollar-set with an update map: set each field in order. -/
def setFields (d : Doc) (u : List (String × Value)) : Doc :=
  u.foldl (fun acc kv => setField acc kv.1 kv.2) d

/-- Embedding of pymongo update_one on a collection keyed by id: rewrite the
first document whose id matches and report the matched count (0 or 1). -/
def updateOne (docs : List (Nat × Doc)) (id : Nat) (f : Doc → Doc) :
    List (Nat × Doc) × Nat :=
  match docs with
  | [] => ([], 0)
  | (i, d) :: rest =>
    if i = id then ((i, f d) :: rest, 1)
    else
      let r := updateOne rest id f
      ((i, d) :: r.1, r.2)

/-- Embedding of pymongo find_one by id: first document whose id matches. -/
def findDoc (docs : List (Nat × Doc)) (id : Nat) : Option Doc :=
  match docs with
  | [] => none
  | (i, d) :: rest => if i = id then some d else findDoc rest id

/-- HTTPException raised by the handlers, by status code. -/
inductive ApiError where
  | badRequest (detail : String)
  | unauthorized (detail : String)
  | forbidden (detail : String)
  | notFound (detail : String)
  | internal (detail : String)
  deriving DecidableEq

/-- Embedding of serialize_doc from src/main.py: expose the store id under
the field id of the returned document. -/
def serialize_doc (id : Nat) (d : Doc) : Doc :=
  setField d "id" (Value.str (toString id))

/-- The update map written by the price update handlers: the new price and
the refreshed timestamp. -/
def priceUpdateFields (price : ℚ) (now : Nat) : List (String × Value) :=
  [("price", Value.num price), ("updated_at", Value.time now)]

/-- Embedding of update_product_price from src/main.py: dollar-set price and
updated_at on the matching product, 404 when nothing matched. -/
def update_product_price (product_id : Nat) (price : ℚ) (now : Nat)
    (docs : List (Nat × Doc)) : Except ApiError (Nat × ℚ) × List (Nat × Doc) :=
  let r := updateOne docs product_id (fun d => setFields d (priceUpdateFields price now))
  if r.2 = 0 then (Except.error (ApiError.notFound "Product not found"), docs)
  else (Except.ok (product_id, price), r.1)

/-- Embedding of the ProductAdminUpdate schema from src/schemas.py with
pydantic exclude_unset presence tracking: the outer Option records whether
the field was present in the request at all, the inner Option whether it was
null or carried a value. -/
structure ProductAdminUpdate where
  name : Option (Option String)
  description : Option (Option String)
  price : Option (Option ℚ)
  category : Option (Option String)
  brand : Option (Option String)
  type : Option (Option String)
  unit : Option (Option String)
  in_stock : Option (Option Bool)
  image_url : Option (Option String)
  deriving DecidableEq

/-- Render one present field of a partial update as its stored value. -/
def optValue (f : α → Value) : Option α → Value
  | none => Value.null
  | some a => f a

/-- One entry of the filtered update map: empty when the field was unset. -/
def optEntry (k : String) (f : α → Value) : Option (Option α) → List (String × Value)
  | none => []
  | some v => [(k, optValue f v)]

/-- Embedding of payload.model_dump with exclude_unset in
admin_update_product: the update map built from exactly the fields present
in the request, in schema field order. -/
def ProductAdminUpdate.updates (p : ProductAdminUpdate) : List (String × Value) :=
  optEntry "name" Value.str p.name ++
  optEntry "description" Value.str p.description ++
  optEntry "price" Value.num p.price ++
  optEntry "category" Value.str p.category ++
  optEntry "brand" Value.str p.brand ++
  optEntry "type" Value.str p.type ++
  optEntry "unit" Value.str p.unit ++
  optEntry "in_stock" Value.boolean p.in_stock ++
  optEntry "image_url" Value.str p.image_url

/-- Embedding of admin_update_product from src/main.py: 400 when the update
set is empty after filtering, otherwise dollar-set the present fields plus
updated_at on the matching product, 404 when nothing matched, and on success
refetch and serialize the updated document. -/
def admin_update_product (product_id : Nat) (payload : ProductAdminUpdate) (now : Nat)
    (docs : List (Nat × Doc)) : Except ApiError (Option Doc) × List (Nat × Doc) :=
  let updates := payload.updates
  if updates.isEmpty then (Except.error (ApiError.badRequest "No fields to update"), docs)
  else
    let updates2 := updates ++ [("updated_at", Value.time now)]
    let r := updateOne docs product_id (fun d => setFields d updates2)
    if r.2 = 0 then (Except.error (ApiError.notFound "Product not found"), docs)
    else (Except.ok ((findDoc r.1 product_id).map (serialize_doc product_id)), r.1)

/-- Embedding of the BulkPriceItem schema from src/schemas.py. -/
structure BulkPriceItem where
  product_id : Nat
  price : ℚ
  deriving DecidableEq

/-- Loop body of bulk_update_prices: apply each item in order, counting the
items whose id matched (truthiness of matched_count in the source). -/
def bulkGo : List BulkPriceItem → Nat → List (Nat × Doc) → Nat → Nat × List (Nat × Doc)
  | [], _, docs, updated => (updated, docs)
  | it :: rest, now, docs, updated =>
    let r := updateOne docs it.product_id (fun d => setFields d (priceUpdateFields it.price now))
    bulkGo rest now r.1 (if r.2 = 0 then updated else updated + 1)

/-- Embedding of bulk_update_prices from src/main.py: apply every item and
return the matched count together with the number of submitted items. -/
def bulk_update_prices (items : List BulkPriceItem) (now : Nat)
    (docs : List (Nat × Doc)) : (Nat × Nat) × List (Nat × Doc) :=
  let r := bulkGo items now docs 0
  ((r.1, items.length), r.2)

/-- Embedding of the OrderItem schema from src/schemas.py. -/
structure OrderItem where
  product_id : String
  name : String
  quantity : ℚ
  unit_price : ℚ
  total : ℚ
  deriving DecidableEq

/-- Embedding of the Customer schema from src/schemas.py. -/
structure Customer where
  full_name : String
  phone : String
  email : Option String
  address : Option String
  deriving DecidableEq

/-- Embedding of the Order schema from src/schemas.py; the status field
defaults to pending at validation time but any caller-supplied value is
kept. -/
structure Order where
  customer : Customer
  items : List OrderItem
  subtotal : ℚ
  payment_method : String
  status : String
  notes : Option String
  deriving DecidableEq

/-- The order collection together with the id counter of the store. -/
structure OrderStore where
  docs : List (Nat × Order)
  nextId : Nat
  deriving DecidableEq

/-- Modelled from the spec: create_document from database.py (imported by
src/main.py but not itself under src/), the generic create operation of the
Document Store Gateway: insert the document into the named collection and
return the generated id. -/
def create_document_order (o : Order) (s : OrderStore) : Nat × OrderStore :=
  (s.nextId, { docs := s.docs ++ [(s.nextId, o)], nextId := s.nextId + 1 })

/-- Embedding of the local subtotal computation in create_order. -/
def calc_subtotal (items : List OrderItem) : ℚ :=
  (items.map OrderItem.total).sum

/-- Embedding of create_order from src/main.py: reject with 400 Subtotal
mismatch when the computed subtotal is more than 0.01 away from the
submitted one, otherwise persist the order as given and answer with the new
id and the literal status pending. -/
def create_order (order : Order) (s : OrderStore) :
    Except ApiError (Nat × String) × OrderStore :=
  if |calc_subtotal order.items - order.subtotal| > 1/100 then
    (Except.error (ApiError.badRequest "Subtotal mismatch"), s)
  else
    let r := create_document_order order s
    (Except.ok (r.1, "pending"), r.2)

/-- Embedding of the PaymentInit schema from src/schemas.py. -/
structure PaymentInit where
  order_id : String
  method : String
  amount : ℚ
  phone : Option String
  deriving DecidableEq

/-- The payment intent document persisted by init_payment. -/
structure PaymentDoc where
  order_id : String
  method : String
  amount : ℚ
  phone : Option String
  status : String
  reference : String
  deriving DecidableEq

/-- The payment collection together with the ObjectId counter of the
store. -/
structure PaymentStore where
  docs : List PaymentDoc
  nextOid : Nat
  deriving DecidableEq

/-- Modelled from the spec: the string form of a fresh bson ObjectId (an
external generator of globally unique tokens, opaque in this scope); the
counter value is rendered by an injective encoding so that distinct fresh
tokens have distinct renderings. -/
def oidString (n : Nat) : String :=
  String.mk (List.replicate (n + 1) 'a')

/-- Python truthiness of the optional phone field: absent or empty. -/
def phoneBlank : Option String → Bool
  | none => true
  | some s => s.isEmpty

/-- Embedding of init_payment from src/main.py: 400 when method is
mobile_money and the phone is absent or empty, otherwise persist an intent
with status initiated under a fresh prefixed reference and return the
reference with that status. -/
def init_payment (p : PaymentInit) (s : PaymentStore) :
    Except ApiError (String × String) × PaymentStore :=
  if p.method == "mobile_money" && phoneBlank p.phone then
    (Except.error (ApiError.badRequest "Phone is required for mobile money"), s)
  else
    let reference := "PMT-" ++ oidString s.nextOid
    let doc : PaymentDoc :=
      { order_id := p.order_id, method := p.method, amount := p.amount,
        phone := p.phone, status := "initiated", reference := reference }
    (Except.ok (reference, "initiated"),
     { docs := s.docs ++ [doc], nextOid := s.nextOid + 1 })

/-- Embedding of payment_status from src/main.py: echo the reference with
the literal status pending, never touching the store. -/
def payment_status (reference : String) (_s : PaymentStore) : String × String :=
  (reference, "pending")

/-- Modelled from the spec: the passlib pbkdf2_sha256 one-way password
hashing primitive (an opaque external service in this scope); modelled as an
injective tagging so that the stored hash is never the plaintext and
verification is checking against a fresh hash. -/
def get_password_hash (password : String) : String :=
  "$pbkdf2-sha256$" ++ password

/-- Embedding of verify_password from src/main.py against the modelled
hashing primitive. -/
def verify_password (plain hashed : String) : Bool :=
  hashed == get_password_hash plain

/-- The user document persisted by register and seed_admin. -/
structure UserDoc where
  email : String
  password : String
  role : String
  full_name : String
  created_at : Nat
  updated_at : Nat
  deriving DecidableEq

/-- The user collection together with the id counter of the store. -/
structure UserStore where
  docs : List (Nat × UserDoc)
  nextId : Nat
  deriving DecidableEq

/-- Embedding of find_one on the user collection keyed by email. -/
def findUserByEmail : List (Nat × UserDoc) → String → Option (Nat × UserDoc)
  | [], _ => none
  | (i, u) :: rest, e => if u.email = e then some (i, u) else findUserByEmail rest e

/-- Embedding of find_one on the user collection keyed by id. -/
def findUserById : List (Nat × UserDoc) → Nat → Option UserDoc
  | [], _ => none
  | (i, u) :: rest, j => if i = j then some u else findUserById rest j

/-- Decoded JWT payload as read by get_current_user: the optional sub and
role claims. -/
structure TokenPayload where
  sub : Option Nat
  role : Option String
  deriving DecidableEq

/-- Modelled from the spec: jwt decoding with signature and expiry
verification (an opaque external service in this scope): a presented
credential either fails verification (none) or yields its decoded
payload. -/
abbrev Credential := Option TokenPayload

/-- Embedding of create_access_token from src/main.py: issue a credential
carrying the subject id and role. -/
def create_access_token (sub : Nat) (role : String) : TokenPayload :=
  { sub := some sub, role := some role }

/-- Embedding of get_current_user from src/main.py: 401 when verification
fails, when the payload has no sub, or when the subject is not in the user
store; otherwise the resolved user. -/
def get_current_user (token : Credential) (users : UserStore) :
    Except ApiError (Nat × UserDoc) :=
  match token with
  | none => Except.error (ApiError.unauthorized "Could not validate credentials")
  | some payload =>
    match payload.sub with
    | none => Except.error (ApiError.unauthorized "Could not validate credentials")
    | some uid =>
      match findUserById users.docs uid with
      | none => Except.error (ApiError.unauthorized "Could not validate credentials")
      | some u => Except.ok (uid, u)

/-- Embedding of require_admin from src/main.py: propagate the resolution
failure, then 403 unless the resolved role is admin. -/
def require_admin (token : Credential) (users : UserStore) :
    Except ApiError (Nat × UserDoc) :=
  match get_current_user token users with
  | Except.error e => Except.error e
  | Except.ok (uid, u) =>
    if u.role ≠ "admin" then Except.error (ApiError.forbidden "Admin access required")
    else Except.ok (uid, u)

/-- Modelled from the spec: the UserCreate schema (imported by src/main.py
from schemas.py but absent from the file under src/): registration payload
carrying email, password, full name and a role defaulting to user. -/
structure UserCreate where
  email : String
  password : String
  full_name : String
  role : String
  deriving DecidableEq

/-- Modelled from the spec: the UserOut response schema (absent from the
file under src/): the created identity without the password hash. -/
structure UserOut where
  id : Nat
  email : String
  role : String
  full_name : String
  created_at : Nat
  updated_at : Nat
  deriving DecidableEq

/-- The user document persisted by register: the payload with the password
replaced by its hash, plus timestamps. -/
def registeredDoc (u : UserCreate) (now : Nat) : UserDoc :=
  { email := u.email, password := get_password_hash u.password,
    role := u.role, full_name := u.full_name,
    created_at := now, updated_at := now }

/-- Embedding of register from src/main.py: 400 when the email already
exists, otherwise persist the document with the hashed password and
timestamps and answer with the created identity. -/
def register (u : UserCreate) (now : Nat) (s : UserStore) :
    Except ApiError UserOut × UserStore :=
  match findUserByEmail s.docs u.email with
  | some _ => (Except.error (ApiError.badRequest "Email already registered"), s)
  | none =>
    let doc := registeredDoc u now
    (Except.ok { id := s.nextId, email := doc.email, role := doc.role,
                 full_name := doc.full_name, created_at := doc.created_at,
                 updated_at := doc.updated_at },
     { docs := s.docs ++ [(s.nextId, doc)], nextId := s.nextId + 1 })

/-- Embedding of login from src/main.py: 400 when no user carries the email
or the password does not verify, otherwise issue a token for the user. -/
def login (username password : String) (s : UserStore) :
    Except ApiError TokenPayload :=
  match findUserByEmail s.docs username with
  | none => Except.error (ApiError.badRequest "Incorrect email or password")
  | some (uid, u) =>
    if verify_password password u.password then
      Except.ok (create_access_token uid u.role)
    else Except.error (ApiError.badRequest "Incorrect email or password")

/-- Result document of seed_admin: the password key is present only on the
created branch. -/
structure SeedResult where
  status : String
  email : String
  password : Option String
  deriving DecidableEq

/-- The admin document persisted by seed_admin on its created branch. -/
def seedAdminDoc (seedEmail seedPassword : String) (now : Nat) : UserDoc :=
  { email := seedEmail, password := get_password_hash seedPassword,
    role := "admin", full_name := "Admin",
    created_at := now, updated_at := now }

/-- Embedding of seed_admin from src/main.py: report exists without writing
when the seed email is taken, otherwise create the admin user with the
hashed seed password and report created together with the plaintext. -/
def seed_admin (seedEmail seedPassword : String) (now : Nat) (s : UserStore) :
    SeedResult × UserStore :=
  match findUserByEmail s.docs seedEmail with
  | some _ => ({ status := "exists", email := seedEmail, password := none }, s)
  | none =>
    let doc := seedAdminDoc seedEmail seedPassword now
    ({ status := "created", email := seedEmail, password := some seedPassword },
     { docs := s.docs ++ [(s.nextId, doc)], nextId := s.nextId + 1 })

/-! Concrete fixtures used by the witness theorems. -/

/-- A sample stored product document. -/
def exProductDoc : Doc :=
  [("name", Value.str "Arabica Beans"), ("description", Value.null),
   ("price", Value.num 20000), ("category", Value.str "beans"),
   ("brand", Value.str "Kakineha"), ("type", Value.str "Arabica"),
   ("unit", Value.str "kg"), ("in_stock", Value.boolean true),
   ("image_url", Value.null)]

/-- A one-product collection whose only id is 1. -/
def exDocs : List (Nat × Doc) := [(1, exProductDoc)]

/-- Bulk price items: one matching id 1, one missing id 2. -/
def exBulkItems : List BulkPriceItem := [⟨1, 5000⟩, ⟨2, 6000⟩]

/-- A bulk price item whose id matches nothing in exDocs. -/
def exMissItem : BulkPriceItem := ⟨2, 6000⟩

/-- A partial update setting only the price field. -/
def exAdminPatch : ProductAdminUpdate :=
  { name := none, description := none, price := some (some 5000), category := none,
    brand := none, type := none, unit := none, in_stock := none, image_url := none }

/-- A sample customer. -/
def exCustomer : Customer := ⟨"Jane Doe", "0700000000", none, none⟩

/-- Two order items with totals 10000 and 15000, as in the spec example. -/
def exItems : List OrderItem :=
  [⟨"p1", "Arabica Beans", 2, 5000, 10000⟩, ⟨"p2", "Ground Coffee", 3, 5000, 15000⟩]

/-- A consistent order with subtotal 25000 and default status. -/
def exOrder : Order :=
  { customer := exCustomer, items := exItems, subtotal := 25000,
    payment_method := "mobile_money", status := "pending", notes := none }

/-- The same order with a caller-supplied status paid. -/
def exOrderPaid : Order := { exOrder with status := "paid" }

/-- An empty order store. -/
def exOrderStore : OrderStore := ⟨[], 0⟩

/-- A mobile money payment request carrying a phone number. -/
def exPaymentInit : PaymentInit :=
  { order_id := "o1", method := "mobile_money", amount := 25000,
    phone := some "0700000000" }

/-- An empty payment store. -/
def exPaymentStore : PaymentStore := ⟨[], 0⟩

/-- A stored non-admin user. -/
def exUserDoc : UserDoc :=
  { email := "jane@example.com", password := get_password_hash "pw123456",
    role := "user", full_name := "Jane Doe", created_at := 0, updated_at := 0 }

/-- A user store holding only the non-admin user under id 1. -/
def exUsers : UserStore := ⟨[(1, exUserDoc)], 2⟩

/-- A verified credential for the stored non-admin user. -/
def exToken : Credential := some ⟨some 1, some "user"⟩

/-- A registration payload. -/
def exUserCreate : UserCreate :=
  { email := "jane@example.com", password := "pw123456",
    full_name := "Jane Doe", role := "user" }

/-- An empty user store. -/
def exUserStore : UserStore := ⟨[], 0⟩

/-! Helper lemmas on documents and collections. -/

theorem lookupField_setField_self (d : Doc) (k : String) (v : Value) :
    lookupField (setField d k v) k = some v := by
  induction d with
  | nil => simp [setField, lookupField]
  | cons kv rest ih =>
    obtain ⟨k1, v1⟩ := kv
    by_cases h : k1 = k <;> simp [setField, lookupField, h, ih]

theorem lookupField_setField_ne (d : Doc) (k k2 : String) (v : Value) (h : k2 ≠ k) :
    lookupField (setField d k v) k2 = lookupField d k2 := by
  have h3 : ¬k = k2 := fun hh => h hh.symm
  induction d with
  | nil => simp [setField, lookupField, h3]
  | cons kv rest ih =>
    obtain ⟨k1, v1⟩ := kv
    by_cases h1 : k1 = k
    · subst h1
      simp [setField, lookupField, h3]
    · by_cases h2 : k1 = k2
      · subst h2
        simp [setField, lookupField, h1]
      · simp [setField, lookupField, h1, h2, ih]

theorem setFields_cons (d : Doc) (kv : String × Value) (rest : List (String × Value)) :
    setFields d (kv :: rest) = setFields (setField d kv.1 kv.2) rest := rfl

theorem setFields_append (d : Doc) (u w : List (String × Value)) :
    setFields d (u ++ w) = setFields (setFields d u) w := by
  simp [setFields, List.foldl_append]

theorem lookupField_setFields_not_mem (d : Doc) (u : List (String × Value)) (k : String)
    (h : k ∉ u.map Prod.fst) : lookupField (setFields d u) k = lookupField d k := by
  induction u generalizing d with
  | nil => rfl
  | cons kv rest ih =>
    simp only [List.map_cons, List.mem_cons] at h
    push_neg at h
    rw [setFields_cons, ih _ h.2, lookupField_setField_ne _ _ _ _ h.1]

theorem lookupField_setFields_mem (d : Doc) (u : List (String × Value)) (k : String) (v : Value)
    (hnd : (u.map Prod.fst).Nodup) (hmem : (k, v) ∈ u) :
    lookupField (setFields d u) k = some v := by
  induction u generalizing d with
  | nil => simp at hmem
  | cons kv rest ih =>
    simp only [List.map_cons, List.nodup_cons] at hnd
    rcases List.mem_cons.mp hmem with heq | htail
    · subst heq
      rw [setFields_cons]
      rw [lookupField_setFields_not_mem _ _ _ hnd.1]
      exact lookupField_setField_self d k v
    · exact ih (setField d kv.1 kv.2) hnd.2 htail

theorem updateOne_not_matched (docs : List (Nat × Doc)) (id : Nat) (f : Doc → Doc)
    (h : id ∉ docs.map Prod.fst) : updateOne docs id f = (docs, 0) := by
  induction docs with
  | nil => rfl
  | cons hd tl ih =>
    simp only [List.map_cons, List.mem_cons] at h
    push_neg at h
    obtain ⟨i, d⟩ := hd
    simp only [updateOne]
    rw [if_neg (fun hh => h.1 hh.symm), ih h.2]

theorem updateOne_count (docs : List (Nat × Doc)) (id : Nat) (f : Doc → Doc) :
    (updateOne docs id f).2 = if id ∈ docs.map Prod.fst then 1 else 0 := by
  induction docs with
  | nil => rfl
  | cons hd tl ih =>
    obtain ⟨i, d⟩ := hd
    by_cases h : i = id
    · subst h
      simp [updateOne]
    · have h2 : ¬id = i := fun hh => h hh.symm
      simp only [updateOne, if_neg h]
      rw [ih]
      by_cases hm : id ∈ List.map Prod.fst tl <;> simp [hm, List.mem_cons, h2]

theorem updateOne_map_fst (docs : List (Nat × Doc)) (id : Nat) (f : Doc → Doc) :
    (updateOne docs id f).1.map Prod.fst = docs.map Prod.fst := by
  induction docs with
  | nil => rfl
  | cons hd tl ih =>
    obtain ⟨i, d⟩ := hd
    by_cases h : i = id <;> simp [updateOne, h, ih]

theorem updateOne_findDoc (docs : List (Nat × Doc)) (id : Nat) (f : Doc → Doc) (d : Doc)
    (h : findDoc docs id = some d) :
    findDoc (updateOne docs id f).1 id = some (f d) ∧ (updateOne docs id f).2 = 1 := by
  induction docs with
  | nil => simp [findDoc] at h
  | cons hd tl ih =>
    obtain ⟨i, d1⟩ := hd
    by_cases hi : i = id
    · subst hi
      simp only [findDoc, if_true, eq_self_iff_true] at h
      rw [Option.some.injEq] at h
      subst h
      simp [updateOne, findDoc]
    · simp only [findDoc, if_neg hi] at h
      simpa [updateOne, findDoc, hi] using ih h

theorem findDoc_mem_fst (docs : List (Nat × Doc)) (id : Nat) (d : Doc)
    (h : findDoc docs id = some d) : id ∈ docs.map Prod.fst := by
  induction docs with
  | nil => simp [findDoc] at h
  | cons hd tl ih =>
    obtain ⟨i, d1⟩ := hd
    by_cases hi : i = id
    · simp [hi]
    · simp only [findDoc, if_neg hi] at h
      simp [ih h]

theorem findUserByEmail_append (l1 l2 : List (Nat × UserDoc)) (e : String) :
    findUserByEmail (l1 ++ l2) e =
      match findUserByEmail l1 e with
      | some r => some r
      | none => findUserByEmail l2 e := by
  induction l1 with
  | nil => rfl
  | cons hd tl ih =>
    obtain ⟨i, u⟩ := hd
    by_cases h : u.email = e <;> simp [findUserByEmail, h, ih]

theorem get_password_hash_ne (p : String) : get_password_hash p ≠ p := by
  intro h
  have hlen := congrArg String.length h
  rw [get_password_hash, String.length_append] at hlen
  have h15 : ("$pbkdf2-sha256$" : String).length = 15 := rfl
  rw [h15] at hlen
  omega

theorem oidString_injective : Function.Injective oidString := by
  intro m n h
  have hdata : (oidString m).data = (oidString n).data := congrArg String.data h
  simp only [oidString] at hdata
  have hlen := congrArg List.length hdata
  simp only [List.length_replicate] at hlen
  omega

theorem optEntry_fst_sublist (k : String) (f : α → Value) (o : Option (Option α)) :
    List.Sublist ((optEntry k f o).map Prod.fst) [k] := by
  cases o with
  | none => exact List.nil_sublist _
  | some v => exact List.Sublist.refl _

theorem updates_fst_sublist (p : ProductAdminUpdate) :
    List.Sublist (p.updates.map Prod.fst)
      ["name", "description", "price", "category", "brand", "type", "unit",
       "in_stock", "image_url"] := by
  simp only [ProductAdminUpdate.updates, List.map_append]
  exact ((((((((optEntry_fst_sublist _ _ _).append
    (optEntry_fst_sublist _ _ _)).append
    (optEntry_fst_sublist _ _ _)).append
    (optEntry_fst_sublist _ _ _)).append
    (optEntry_fst_sublist _ _ _)).append
    (optEntry_fst_sublist _ _ _)).append
    (optEntry_fst_sublist _ _ _)).append
    (optEntry_fst_sublist _ _ _)).append
    (optEntry_fst_sublist _ _ _)

theorem updates_fst_nodup (p : ProductAdminUpdate) : (p.updates.map Prod.fst).Nodup :=
  List.Nodup.sublist (updates_fst_sublist p) (by decide)

theorem updated_at_not_mem_updates (p : ProductAdminUpdate) :
    "updated_at" ∉ p.updates.map Prod.fst := by
  intro hmem
  have h2 := (updates_fst_sublist p).subset hmem
  simp at h2

theorem bulkGo_spec (items : List BulkPriceItem) (now : Nat) :
    ∀ (docs : List (Nat × Doc)) (acc : Nat),
      (bulkGo items now docs acc).1 =
        acc + items.countP (fun it => decide (it.product_id ∈ docs.map Prod.fst))
      ∧ (bulkGo items now docs acc).2.map Prod.fst = docs.map Prod.fst := by
  induction items with
  | nil =>
    intro docs acc
    simp [bulkGo]
  | cons it rest ih =>
    intro docs acc
    have hcount := updateOne_count docs it.product_id
      (fun d => setFields d (priceUpdateFields it.price now))
    have hkeys := updateOne_map_fst docs it.product_id
      (fun d => setFields d (priceUpdateFields it.price now))
    obtain ⟨ih1, ih2⟩ := ih
      (updateOne docs it.product_id (fun d => setFields d (priceUpdateFields it.price now))).1
      (if (updateOne docs it.product_id
            (fun d => setFields d (priceUpdateFields it.price now))).2 = 0
       then acc else acc + 1)
    constructor
    · show (bulkGo rest now
          (updateOne docs it.product_id
            (fun d => setFields d (priceUpdateFields it.price now))).1
          (if (updateOne docs it.product_id
                (fun d => setFields d (priceUpdateFields it.price now))).2 = 0
           then acc else acc + 1)).1 = _
      rw [ih1]
      simp only [hkeys, hcount, List.countP_cons]
      by_cases hmem : it.product_id ∈ docs.map Prod.fst
      · simp [hmem]
        omega
      · simp [hmem]
    · show (bulkGo rest now
          (updateOne docs it.product_id
            (fun d => setFields d (priceUpdateFields it.price now))).1
          (if (updateOne docs it.product_id
                (fun d => setFields d (priceUpdateFields it.price now))).2 = 0
           then acc else acc + 1)).2.map Prod.fst = _
      rw [ih2, hkeys]

theorem reference_ne_of_oid_ne (m n : Nat) (h : m ≠ n) :
    "PMT-" ++ oidString m ≠ "PMT-" ++ oidString n := by
  intro hh
  apply h
  apply oidString_injective
  have hdata := congrArg String.data hh
  simp only [String.data_append] at hdata
  have h2 := List.append_cancel_left hdata
  calc oidString m = String.mk (oidString m).data := rfl
    _ = String.mk (oidString n).data := by rw [h2]
    _ = oidString n := rfl

/-! Claim theorems. -/

/-- C1: for every order submitted to create_order, the call succeeds if and
only if the absolute difference between the sum of the item totals and the
submitted subtotal is at most 0.01; on failure it returns 400 with detail
Subtotal mismatch and the store untouched, and on success it returns the
new order id together with status pending, the order being appended under
that id. -/
theorem create_order_subtotal_spec (order : Order) (s : OrderStore) :
    ((∃ v, (create_order order s).1 = Except.ok v) ↔
      |calc_subtotal order.items - order.subtotal| ≤ 1/100)
  ∧ (|calc_subtotal order.items - order.subtotal| > 1/100 →
      create_order order s = (Except.error (ApiError.badRequest "Subtotal mismatch"), s))
  ∧ (|calc_subtotal order.items - order.subtotal| ≤ 1/100 →
      create_order order s =
        (Except.ok (s.nextId, "pending"),
         { docs := s.docs ++ [(s.nextId, order)], nextId := s.nextId + 1 })) := by
  refine ⟨⟨?_, ?_⟩, ?_, ?_⟩
  · rintro ⟨v, hv⟩
    by_contra hgt
    rw [not_le] at hgt
    rw [create_order, if_pos hgt] at hv
    exact Except.noConfusion hv
  · intro hle
    have h : ¬|calc_subtotal order.items - order.subtotal| > 1/100 := not_lt.mpr hle
    refine ⟨(s.nextId, "pending"), ?_⟩
    rw [create_order, if_neg h]
    rfl
  · intro hgt
    rw [create_order, if_pos hgt]
  · intro hle
    have h : ¬|calc_subtotal order.items - order.subtotal| > 1/100 := not_lt.mpr hle
    rw [create_order, if_neg h]
    rfl

/-- Witness for C1: the spec example with item totals 10000 and 15000 and
subtotal 25000 succeeds with the fresh id 0 and status pending. -/
theorem create_order_subtotal_spec_witness :
    create_order exOrder exOrderStore =
      (Except.ok (0, "pending"), { docs := [(0, exOrder)], nextId := 1 }) := by
  have h := (create_order_subtotal_spec exOrder exOrderStore).2.2
    (by norm_num [calc_subtotal, exOrder, exItems])
  rw [h]
  rfl

/-- C2: update_product_price called with an id matching no stored product
returns 404 Product not found and leaves every document unchanged, for
every non-negative price. -/
theorem update_product_price_missing_spec (product_id : Nat) (price : ℚ) (now : Nat)
    (docs : List (Nat × Doc)) (hp : 0 ≤ price) (h : product_id ∉ docs.map Prod.fst) :
    update_product_price product_id price now docs =
      (Except.error (ApiError.notFound "Product not found"), docs) := by
  have hu := updateOne_not_matched docs product_id
    (fun d => setFields d (priceUpdateFields price now)) h
  simp [update_product_price, hu]

/-- Witness for C2: updating id 5 in a store holding only id 1 returns 404
with the store intact. -/
theorem update_product_price_missing_spec_witness :
    update_product_price 5 2 0 exDocs =
      (Except.error (ApiError.notFound "Product not found"), exDocs) :=
  update_product_price_missing_spec 5 2 0 exDocs (by norm_num) (by decide)

/-- C9: payment_status echoes the given reference with the literal status
pending, and its result is independent of the payment store. -/
theorem payment_status_spec (reference : String) (s1 s2 : PaymentStore) :
    payment_status reference s1 = (reference, "pending")
  ∧ payment_status reference s1 = payment_status reference s2 :=
  ⟨rfl, rfl⟩

/-- C10: an order accepted by create_order whose caller-supplied status is
not pending is persisted with that status while the response still reports
pending, so the stored and returned statuses differ. -/
theorem create_order_status_divergence (order : Order) (s : OrderStore)
    (h : |calc_subtotal order.items - order.subtotal| ≤ 1/100)
    (hs : order.status ≠ "pending") :
    (create_order order s).1 = Except.ok (s.nextId, "pending")
  ∧ (create_order order s).2.docs = s.docs ++ [(s.nextId, order)]
  ∧ order.status ≠ "pending" := by
  have h2 : ¬|calc_subtotal order.items - order.subtotal| > 1/100 := not_lt.mpr h
  refine ⟨?_, ?_, hs⟩ <;> rw [create_order, if_neg h2] <;> rfl

/-- Witness for C10: the consistent order with status paid is stored as
given while the response says pending. -/
theorem create_order_status_divergence_witness :
    (create_order exOrderPaid exOrderStore).1 = Except.ok (0, "pending")
  ∧ (create_order exOrderPaid exOrderStore).2.docs = [(0, exOrderPaid)]
  ∧ exOrderPaid.status ≠ "pending" := by
  have h := create_order_status_divergence exOrderPaid exOrderStore
    (by norm_num [calc_subtotal, exOrderPaid, exOrder, exItems]) (by decide)
  exact h

/-- C3: bulk_update_prices applies each update independently: an item whose
id matches no document does not abort the remaining items, the returned
pair is the count of items whose id matched a stored product together with
the number of submitted items, and the set of stored ids is unchanged. -/
theorem bulk_update_prices_spec (items : List BulkPriceItem) (now : Nat)
    (docs : List (Nat × Doc)) :
    (bulk_update_prices items now docs).1 =
      (items.countP (fun it => decide (it.product_id ∈ docs.map Prod.fst)), items.length)
  ∧ (bulk_update_prices items now docs).2.map Prod.fst = docs.map Prod.fst
  ∧ (∀ (it : BulkPriceItem) (rest : List BulkPriceItem),
      it.product_id ∉ docs.map Prod.fst →
      bulkGo (it :: rest) now docs 0 = bulkGo rest now docs 0) := by
  obtain ⟨h1, h2⟩ := bulkGo_spec items now docs 0
  refine ⟨?_, h2, ?_⟩
  · show ((bulkGo items now docs 0).1, items.length) = _
    rw [h1]
    simp
  · intro it rest hmem
    have hnm := updateOne_not_matched docs it.product_id
      (fun d => setFields d (priceUpdateFields it.price now)) hmem
    show bulkGo rest now
        (updateOne docs it.product_id
          (fun d => setFields d (priceUpdateFields it.price now))).1
        (if (updateOne docs it.product_id
              (fun d => setFields d (priceUpdateFields it.price now))).2 = 0
         then 0 else 0 + 1) = bulkGo rest now docs 0
    rw [hnm]
    rfl

/-- Witness for C3: the spec example of one matching and one missing id
returns updated 1 of total 2, and the missing item alone is a no-op. -/
theorem bulk_update_prices_spec_witness :
    (bulk_update_prices exBulkItems 0 exDocs).1 = (1, 2)
  ∧ bulkGo [exMissItem] 0 exDocs 0 = bulkGo [] 0 exDocs 0 := by
  have h := bulk_update_prices_spec exBulkItems 0 exDocs
  refine ⟨?_, h.2.2 exMissItem [] (by decide)⟩
  rw [h.1]
  decide

/-- C5: init_payment fails 400 exactly when method is mobile_money with an
absent or empty phone; otherwise it persists an intent with status
initiated under a reference made of the stable PMT- prefix and the fresh
token of this call, returns that reference with status initiated, and
references built from distinct fresh tokens are distinct. -/
theorem init_payment_spec (p : PaymentInit) (s : PaymentStore) :
    (p.method = "mobile_money" ∧ phoneBlank p.phone = true →
      init_payment p s =
        (Except.error (ApiError.badRequest "Phone is required for mobile money"), s))
  ∧ (¬(p.method = "mobile_money" ∧ phoneBlank p.phone = true) →
      init_payment p s =
        (Except.ok ("PMT-" ++ oidString s.nextOid, "initiated"),
         { docs := s.docs ++
             [{ order_id := p.order_id, method := p.method, amount := p.amount,
                phone := p.phone, status := "initiated",
                reference := "PMT-" ++ oidString s.nextOid }],
           nextOid := s.nextOid + 1 }))
  ∧ (∀ m : Nat, m ≠ s.nextOid →
      "PMT-" ++ oidString m ≠ "PMT-" ++ oidString s.nextOid) := by
  refine ⟨?_, ?_, fun m hm => reference_ne_of_oid_ne m s.nextOid hm⟩
  · rintro ⟨h1, h2⟩
    have hb : (p.method == "mobile_money" && phoneBlank p.phone) = true := by
      rw [Bool.and_eq_true, beq_iff_eq]
      exact ⟨h1, h2⟩
    rw [init_payment, if_pos hb]
  · intro h
    cases hb : (p.method == "mobile_money" && phoneBlank p.phone) with
    | true =>
      rw [Bool.and_eq_true, beq_iff_eq] at hb
      exact absurd hb h
    | false =>
      have hb2 : ¬((p.method == "mobile_money" && phoneBlank p.phone) = true) := by
        rw [hb]
        exact Bool.false_ne_true
      rw [init_payment, if_neg hb2]

/-- Witness for C5: a mobile money request with a phone succeeds with the
prefixed fresh reference, and the next fresh reference differs. -/
theorem init_payment_spec_witness :
    (init_payment exPaymentInit exPaymentStore).1 =
      Except.ok ("PMT-" ++ oidString 0, "initiated")
  ∧ "PMT-" ++ oidString 1 ≠ "PMT-" ++ oidString 0 := by
  have h := init_payment_spec exPaymentInit exPaymentStore
  refine ⟨?_, h.2.2 1 (by decide)⟩
  have h2 := h.2.1 (by decide)
  rw [h2]
  rfl

/-- C6: for the admin gate, a credential failing verification, one without
a subject claim, or one whose subject is absent from the user store yields
401 whatever the role claim says, while a verified credential resolving to
a stored user whose role is not admin yields 403. -/
theorem require_admin_spec (token : Credential) (users : UserStore) :
    (token = none →
      require_admin token users =
        Except.error (ApiError.unauthorized "Could not validate credentials"))
  ∧ (∀ payload : TokenPayload, token = some payload → payload.sub = none →
      require_admin token users =
        Except.error (ApiError.unauthorized "Could not validate credentials"))
  ∧ (∀ (payload : TokenPayload) (uid : Nat), token = some payload →
      payload.sub = some uid → findUserById users.docs uid = none →
      require_admin token users =
        Except.error (ApiError.unauthorized "Could not validate credentials"))
  ∧ (∀ (payload : TokenPayload) (uid : Nat) (u : UserDoc), token = some payload →
      payload.sub = some uid → findUserById users.docs uid = some u →
      u.role ≠ "admin" →
      require_admin token users =
        Except.error (ApiError.forbidden "Admin access required")) := by
  refine ⟨?_, ?_, ?_, ?_⟩
  · rintro rfl
    rfl
  · rintro payload rfl hsub
    simp [require_admin, get_current_user, hsub]
  · rintro payload uid rfl hsub hfind
    simp [require_admin, get_current_user, hsub, hfind]
  · rintro payload uid u rfl hsub hfind hrole
    simp [require_admin, get_current_user, hsub, hfind, hrole]

/-- Witness for C6: a verified, stored, non-admin credential is refused
with 403. -/
theorem require_admin_spec_witness :
    require_admin exToken exUsers =
      Except.error (ApiError.forbidden "Admin access required") :=
  (require_admin_spec exToken exUsers).2.2.2 ⟨some 1, some "user"⟩ 1 exUserDoc
    rfl rfl rfl (by decide)

/-- C7: register fails 400 when the email already exists, so a second call
with the same email always fails; on success the stored password field is
the one-way hash, never equal to the submitted plaintext, and the response
is the created identity, which carries no password field. -/
theorem register_spec (u : UserCreate) (now : Nat) (s : UserStore) :
    ((∃ e, findUserByEmail s.docs u.email = some e) →
      register u now s = (Except.error (ApiError.badRequest "Email already registered"), s))
  ∧ (findUserByEmail s.docs u.email = none →
      (register u now s).1 =
        Except.ok { id := s.nextId, email := u.email, role := u.role,
                    full_name := u.full_name, created_at := now, updated_at := now }
    ∧ (register u now s).2.docs = s.docs ++ [(s.nextId, registeredDoc u now)]
    ∧ (registeredDoc u now).password = get_password_hash u.password
    ∧ get_password_hash u.password ≠ u.password
    ∧ (∀ (u2 : UserCreate) (now2 : Nat), u2.email = u.email →
        (register u2 now2 (register u now s).2).1 =
          Except.error (ApiError.badRequest "Email already registered"))) := by
  constructor
  · rintro ⟨e, he⟩
    simp [register, he]
  · intro hn
    have hstore : (register u now s).2 =
        { docs := s.docs ++ [(s.nextId, registeredDoc u now)], nextId := s.nextId + 1 } := by
      simp [register, hn]
    refine ⟨?_, ?_, rfl, get_password_hash_ne u.password, ?_⟩
    · simp [register, hn, registeredDoc]
    · rw [hstore]
    · intro u2 now2 he2
      have hfind : findUserByEmail (s.docs ++ [(s.nextId, registeredDoc u now)]) u2.email =
          some (s.nextId, registeredDoc u now) := by
        rw [he2, findUserByEmail_append, hn]
        simp [findUserByEmail, registeredDoc]
      rw [hstore]
      simp [register, hfind]

/-- Witness for C7: registering on an empty store succeeds with the bare
identity, and registering the same email again fails 400. -/
theorem register_spec_witness :
    (register exUserCreate 0 exUserStore).1 =
      Except.ok { id := 0, email := "jane@example.com", role := "user",
                  full_name := "Jane Doe", created_at := 0, updated_at := 0 }
  ∧ (register exUserCreate 1 (register exUserCreate 0 exUserStore).2).1 =
      Except.error (ApiError.badRequest "Email already registered") := by
  have h := (register_spec exUserCreate 0 exUserStore).2 rfl
  exact ⟨h.1, h.2.2.2.2 exUserCreate 1 rfl⟩

/-- C8: seed_admin is idempotent: with the seed email absent it creates the
admin user and reports created with the plaintext password; a second call
reports exists and writes nothing; the seeded credentials log in after the
first call, hence after either, the store being unchanged by the second;
and whenever the seed email is present it reports exists without
writing. -/
theorem seed_admin_spec (seedEmail seedPassword : String) (now now2 : Nat) (s : UserStore)
    (h : findUserByEmail s.docs seedEmail = none) :
    (seed_admin seedEmail seedPassword now s).1 =
      { status := "created", email := seedEmail, password := some seedPassword }
  ∧ (seed_admin seedEmail seedPassword now s).2.docs =
      s.docs ++ [(s.nextId, seedAdminDoc seedEmail seedPassword now)]
  ∧ (seedAdminDoc seedEmail seedPassword now).role = "admin"
  ∧ (seed_admin seedEmail seedPassword now2 (seed_admin seedEmail seedPassword now s).2).1 =
      { status := "exists", email := seedEmail, password := none }
  ∧ (seed_admin seedEmail seedPassword now2 (seed_admin seedEmail seedPassword now s).2).2 =
      (seed_admin seedEmail seedPassword now s).2
  ∧ login seedEmail seedPassword (seed_admin seedEmail seedPassword now s).2 =
      Except.ok (create_access_token s.nextId "admin")
  ∧ (∀ s2 : UserStore, (∃ e, findUserByEmail s2.docs seedEmail = some e) →
      (seed_admin seedEmail seedPassword now2 s2).1 =
        { status := "exists", email := seedEmail, password := none }
    ∧ (seed_admin seedEmail seedPassword now2 s2).2 = s2) := by
  have hstore : (seed_admin seedEmail seedPassword now s).2 =
      { docs := s.docs ++ [(s.nextId, seedAdminDoc seedEmail seedPassword now)],
        nextId := s.nextId + 1 } := by
    simp [seed_admin, h]
  have hfind : findUserByEmail
      (s.docs ++ [(s.nextId, seedAdminDoc seedEmail seedPassword now)]) seedEmail =
      some (s.nextId, seedAdminDoc seedEmail seedPassword now) := by
    rw [findUserByEmail_append, h]
    simp [findUserByEmail, seedAdminDoc]
  refine ⟨?_, ?_, rfl, ?_, ?_, ?_, ?_⟩
  · simp [seed_admin, h]
  · rw [hstore]
  · rw [hstore]
    simp [seed_admin, hfind]
  · rw [hstore]
    simp [seed_admin, hfind]
  · rw [hstore]
    simp only [login]
    rw [hfind]
    simp [verify_password, seedAdminDoc, create_access_token]
  · rintro s2 ⟨e, he⟩
    constructor <;> simp [seed_admin, he]

/-- Witness for C8: seeding an empty store reports created with the
plaintext, reseeding reports exists, and the seeded credentials log in. -/
theorem seed_admin_spec_witness :
    (seed_admin "admin@example.com" "Admin@123" 0 exUserStore).1 =
      { status := "created", email := "admin@example.com", password := some "Admin@123" }
  ∧ (seed_admin "admin@example.com" "Admin@123" 1
        (seed_admin "admin@example.com" "Admin@123" 0 exUserStore).2).1 =
      { status := "exists", email := "admin@example.com", password := none }
  ∧ login "admin@example.com" "Admin@123"
        (seed_admin "admin@example.com" "Admin@123" 0 exUserStore).2 =
      Except.ok (create_access_token 0 "admin") := by
  have h := seed_admin_spec "admin@example.com" "Admin@123" 0 1 exUserStore rfl
  exact ⟨h.1, h.2.2.2.1, h.2.2.2.2.2.1⟩

/-- C4: admin_update_product modifies only the fields present in the
request plus the updated-timestamp: with an empty filtered update set it
fails 400 with the store unchanged, with no matching id it fails 404 with
the store unchanged, and on success it returns the refetched updated
document, in which every present field carries its requested value,
updated_at carries the new timestamp, and every other field keeps its
previous value. -/
theorem admin_update_product_spec (product_id : Nat) (payload : ProductAdminUpdate)
    (now : Nat) (docs : List (Nat × Doc)) :
    (payload.updates = [] →
      admin_update_product product_id payload now docs =
        (Except.error (ApiError.badRequest "No fields to update"), docs))
  ∧ (payload.updates ≠ [] → product_id ∉ docs.map Prod.fst →
      admin_update_product product_id payload now docs =
        (Except.error (ApiError.notFound "Product not found"), docs))
  ∧ (∀ d : Doc, payload.updates ≠ [] → findDoc docs product_id = some d →
      admin_update_product product_id payload now docs =
        (Except.ok (some (serialize_doc product_id
            (setFields d (payload.updates ++ [("updated_at", Value.time now)])))),
         (updateOne docs product_id
            (fun x => setFields x (payload.updates ++ [("updated_at", Value.time now)]))).1)
    ∧ lookupField (setFields d (payload.updates ++ [("updated_at", Value.time now)]))
        "updated_at" = some (Value.time now)
    ∧ (∀ k : String, k ∉ payload.updates.map Prod.fst → k ≠ "updated_at" →
        lookupField (setFields d (payload.updates ++ [("updated_at", Value.time now)])) k =
          lookupField d k)
    ∧ (∀ (k : String) (v : Value), (k, v) ∈ payload.updates →
        lookupField (setFields d (payload.updates ++ [("updated_at", Value.time now)])) k =
          some v)) := by
  refine ⟨?_, ?_, ?_⟩
  · intro h
    simp [admin_update_product, h]
  · intro h hnm
    have hempty : payload.updates.isEmpty = false := by
      cases hq : payload.updates with
      | nil => exact absurd hq h
      | cons x xs => rfl
    have hcnt := updateOne_count docs product_id
      (fun x => setFields x (payload.updates ++ [("updated_at", Value.time now)]))
    simp [admin_update_product, hempty, hcnt, hnm]
  · intro d h hfind
    have hempty : payload.updates.isEmpty = false := by
      cases hq : payload.updates with
      | nil => exact absurd hq h
      | cons x xs => rfl
    have hup := updateOne_findDoc docs product_id
      (fun x => setFields x (payload.updates ++ [("updated_at", Value.time now)])) d hfind
    refine ⟨?_, ?_, ?_, ?_⟩
    · simp [admin_update_product, hempty, hup.1, hup.2]
    · rw [setFields_append]
      exact lookupField_setField_self (setFields d payload.updates) "updated_at" (Value.time now)
    · intro k hk hk2
      rw [setFields_append]
      calc lookupField
            (setFields (setFields d payload.updates) [("updated_at", Value.time now)]) k
          = lookupField (setFields d payload.updates) k :=
            lookupField_setField_ne (setFields d payload.updates) "updated_at" k
              (Value.time now) hk2
        _ = lookupField d k := lookupField_setFields_not_mem d payload.updates k hk
    · intro k v hkv
      have hknu : k ≠ "updated_at" := by
        intro he
        apply updated_at_not_mem_updates payload
        rw [← he]
        exact List.mem_map_of_mem Prod.fst hkv
      rw [setFields_append]
      calc lookupField
            (setFields (setFields d payload.updates) [("updated_at", Value.time now)]) k
          = lookupField (setFields d payload.updates) k :=
            lookupField_setField_ne (setFields d payload.updates) "updated_at" k
              (Value.time now) hknu
        _ = some v :=
            lookupField_setFields_mem d payload.updates k v (updates_fst_nodup payload) hkv

/-- Witness for C4: patching only the price of the stored product sets
price and leaves name untouched. -/
theorem admin_update_product_spec_witness :
    lookupField (setFields exProductDoc
        (exAdminPatch.updates ++ [("updated_at", Value.time 7)])) "price" =
      some (Value.num 5000)
  ∧ lookupField (setFields exProductDoc
        (exAdminPatch.updates ++ [("updated_at", Value.time 7)])) "name" =
      lookupField exProductDoc "name" := by
  have h := (admin_update_product_spec 1 exAdminPatch 7 exDocs).2.2 exProductDoc
    (by decide) rfl
  exact ⟨h.2.2.2 "price" (Value.num 5000) (by decide),
         h.2.2.1 "name" (by decide) (by decide)⟩

end Kakineha
